import Mathlib

/-!
Verification development for the nextshell request-matching and
value-extraction core (the `Filter` algebra, path cursor and rejection
model of the `server` crate).

The crate ships the filter core's test suite (`src/server/tests/`) and the
`any` filter (`src/server/src/filters/any.rs`); the filter/rejection/path
core itself (the `Filter` trait, the `and`/`or` combinators, `reject.rs`
and the route/path machinery) is not part of the sources at hand, so it is
modelled here from the specification (spec.md sections 3, 4.1, 4.2, 4.3,
4.4 and 7), with the shipped tests pinning concrete behaviour.

Strings are manipulated through their character lists so that every
definition evaluates inside the kernel.
-/

namespace Nextshell

/-- A dynamically typed extracted value.  The Rust core extracts
statically typed tuples; here a flat `List Val` plays the role of the
flattened extract tuple (spec section 3, "Extract tuple"). -/
inductive Val where
  | str (s : String)
  | nat (n : Nat)
deriving DecidableEq, Repr

/-- Modelled from the spec: the rejection taxonomy of spec sections 3 and 7
(the crate's `reject.rs` is not among the sources; only its tests are).
`custom` is kept opaque, as in the spec ("Custom{cause}"). -/
inductive Rejection where
  | notFound
  | methodNotAllowed (allowed : List String)
  | missingHeader (name : String)
  | invalidHeader (name : String)
  | missingCookie (name : String)
  | invalidQuery
  | missingExtension
  | payloadTooLarge
  | custom
deriving DecidableEq, Repr

/-- Modelled from the spec: the immutable request context (spec section 3,
"Request Context"): method, decoded path (the empty string stands for an
authority-form request, whose URI has no path component), optional query
string, ordered headers, and the typed extension side-table reduced to the
list of types it holds. -/
structure Request where
  method : String
  path : String
  query : Option String
  headers : List (String × String)
  extensions : List String
deriving DecidableEq, Repr

/-- Modelled from the spec: the mutable per-request matching state, a
request plus the path cursor, "a single integer offset into the path
string" (spec section 3, "Path Cursor"). -/
structure Route where
  req : Request
  cursor : Nat
deriving DecidableEq, Repr

/-- The portion of the path not yet consumed by matching (the query string
is never part of `Request.path`, so it is never part of the remainder). -/
def Route.remaining (r : Route) : List Char :=
  r.req.path.data.drop r.cursor

/-- The initial cursor has consumed the leading slash of a normal path and
nothing of an (empty) authority-form path. -/
def Route.start (req : Request) : Route :=
  { req := req, cursor := if req.path = "" then 0 else 1 }

/-- Split a character list on a separator character. -/
def splitCh (sep : Char) : List Char → List (List Char)
  | [] => [[]]
  | c :: cs =>
    match splitCh sep cs with
    | [] => [[c]]
    | h :: t => if c = sep then [] :: h :: t else (c :: h) :: t

/-- Drop leading blanks (cookie pairs are separated by "; "). -/
def trimSp (cs : List Char) : List Char :=
  cs.dropWhile (fun c => c = ' ')

/-- The value of a decimal digit character, if it is one. -/
def digitVal (c : Char) : Option Nat :=
  let n := c.toNat
  if 48 ≤ n ∧ n ≤ 57 then some (n - 48) else none

/-- Parse a non-empty all-digit character list as a decimal number. -/
def digitsToNat (cs : List Char) : Option Nat :=
  if cs = [] then none
  else
    cs.foldl (fun acc c =>
      match acc, digitVal c with
      | some a, some d => some (a * 10 + d)
      | _, _ => none) (some 0)

/-- The `FromStr` impl of `u32` as used by `param::<u32>()`: decimal
digits that fit in 32 bits, anything else is a parse failure. -/
def parseU32 (cs : List Char) : Option Val :=
  match digitsToNat cs with
  | some n => if n < 4294967296 then some (.nat n) else none
  | none => none

/-- The `FromStr` impl of `String` as used by `param::<String>()`: every
segment parses. -/
def parseStr (cs : List Char) : Option Val :=
  some (.str (String.mk cs))

/-- Split a `key=value` character list at the first equals sign. -/
def splitKV (cs : List Char) : String × String :=
  (String.mk (cs.takeWhile (fun c => c ≠ '=')),
   String.mk ((cs.dropWhile (fun c => c ≠ '=')).drop 1))

/-- The key/value pairs of a `Cookie` header value such as
"abc=def; foo=baz". -/
def cookiePairs (v : String) : List (String × String) :=
  (splitCh ';' v.data).map (fun p => splitKV (trimSp p))

/-- First value for a name in an ordered name/value list (headers, cookie
pairs). -/
def lookupKV (hs : List (String × String)) (n : String) : Option String :=
  match hs.find? (fun p => p.1 == n) with
  | some p => some p.2
  | none => none

/-- The keys appearing in a query string such as "foo=1&baz=2"; a missing
query string has no keys. -/
def queryKeys (q : Option String) : List String :=
  match q with
  | none => []
  | some s => (splitCh '&' s.data).map (fun p => String.mk (p.takeWhile (fun c => c ≠ '=')))

/-- The next unconsumed path segment: the remainder up to the next slash. -/
def firstSeg (cs : List Char) : List Char :=
  cs.takeWhile (fun c => c ≠ '/')

/-- The non-empty slash-separated segments of a path suffix, as enumerated
by `peek`'s segment iterator. -/
def segsOf (s : String) : List String :=
  ((splitCh '/' s.data).filter (fun p => p ≠ [])).map String.mk

/-- Advance the cursor past a matched segment, and past the slash that
follows it when one does. -/
def Route.consumeSeg (r : Route) (seg rem : List Char) : Route :=
  { r with cursor := r.cursor + seg.length + (if seg.length < rem.length then 1 else 0) }

/-- Modelled from the spec: the filter operator tree (spec section 3,
"Filter Node", restricted to the leaves and combinators the claims
exercise).  `param` carries its segment parser; `query` models the
deserialization target by its required keys; `extGet` looks a type name up
in the extension side-table; `any` is the always-matching filter of
`src/server/src/filters/any.rs`. -/
inductive Filter where
  | path (lit : String)
  | param (p : List Char → Option Val)
  | pathEnd
  | tail
  | peek
  | full
  | method (m : String)
  | headerExact (name value : String)
  | cookie (name : String)
  | query (keys : List String)
  | extGet (ty : String)
  | any
  | and (a b : Filter)
  | or (a b : Filter)

/-- Modelled from the spec: the rejection precedence rank of spec section
4.3, "NotFound < MethodNotAllowed < any structural request error". -/
def rank : Rejection → Nat
  | .notFound => 0
  | .methodNotAllowed _ => 1
  | _ => 2

/-- Modelled from the spec: the default reply status of an unrecovered
rejection (spec section 7), with one departure the shipped tests force:
`tests/ext.rs` (`get_missing`) asserts that a missing extension renders
500, not 400.  An unrecovered `custom` rejection defaults to 500. -/
def statusOf : Rejection → Nat
  | .notFound => 404
  | .methodNotAllowed _ => 405
  | .missingHeader _ => 400
  | .invalidHeader _ => 400
  | .missingCookie _ => 400
  | .invalidQuery => 400
  | .missingExtension => 500
  | .payloadTooLarge => 400
  | .custom => 500

/-- Modelled from the spec: combining the rejections of an `or` whose both
branches rejected (spec section 4.3): the higher rank wins; two
Method-Not-Allowed rejections merge by uniting their allowed-method lists;
other same-rank siblings keep the more informative (higher-status) one. -/
def merge (a b : Rejection) : Rejection :=
  match a, b with
  | .methodNotAllowed m1, .methodNotAllowed m2 => .methodNotAllowed (m1 ++ m2)
  | _, _ =>
    if rank a < rank b then b
    else if rank b < rank a then a
    else if statusOf a < statusOf b then b else a

/-- Outcome of evaluating a filter: a flat extract tuple or a rejection. -/
inductive FOut where
  | ok (vs : List Val)
  | err (e : Rejection)
deriving DecidableEq, Repr

/-- Modelled from the spec: evaluation of a filter tree against a route
(spec sections 4.1 and 4.2).  Leaves follow the path state machine of
section 4.2; `and` sequences and concatenates extract tuples; `or` keeps
an explicit save/restore pair around its branches (section 9,
"Backtracking mutable cursor"). -/
def evalF : Filter → Route → Route × FOut
  | .path lit, r =>
    let rem := r.remaining
    let seg := firstSeg rem
    if rem = [] then (r, .err .notFound)
    else if seg = lit.data then (r.consumeSeg seg rem, .ok [])
    else (r, .err .notFound)
  | .param p, r =>
    let rem := r.remaining
    let seg := firstSeg rem
    if seg = [] then (r, .err .notFound)
    else
      match p seg with
      | some v => (r.consumeSeg seg rem, .ok [v])
      | none => (r, .err .notFound)
  | .pathEnd, r =>
    if r.remaining = [] then (r, .ok []) else (r, .err .notFound)
  | .tail, r =>
    ({ r with cursor := r.req.path.data.length },
     .ok [.str (if r.req.path = "" then "/" else String.mk r.remaining)])
  | .peek, r => (r, .ok [.str (String.mk r.remaining)])
  | .full, r => (r, .ok [.str (if r.req.path = "" then "/" else r.req.path)])
  | .method m, r =>
    if r.req.method = m then (r, .ok []) else (r, .err (.methodNotAllowed [m]))
  | .headerExact n v, r =>
    match lookupKV r.req.headers n with
    | none => (r, .err (.missingHeader n))
    | some hv => if hv = v then (r, .ok []) else (r, .err (.invalidHeader n))
  | .cookie n, r =>
    match lookupKV r.req.headers "cookie" with
    | none => (r, .err (.missingCookie n))
    | some hv =>
      match lookupKV (cookiePairs hv) n with
      | some cv => (r, .ok [.str cv])
      | none => (r, .err (.missingCookie n))
  | .query keys, r =>
    if keys.all (fun k => (queryKeys r.req.query).contains k) then (r, .ok [])
    else (r, .err .invalidQuery)
  | .extGet ty, r =>
    if r.req.extensions.contains ty then (r, .ok [.str ty])
    else (r, .err .missingExtension)
  | .any, r => (r, .ok [])
  | .and a b, r =>
    match evalF a r with
    | (r1, .ok va) =>
      match evalF b r1 with
      | (r2, .ok vb) => (r2, .ok (va ++ vb))
      | (r2, .err e) => (r2, .err e)
    | (r1, .err e) => (r1, .err e)
  | .or a b, r =>
    let saved := r.cursor
    match evalF a r with
    | (r1, .ok va) => (r1, .ok va)
    | (_, .err e1) =>
      match evalF b { r with cursor := saved } with
      | (r2, .ok vb) => (r2, .ok vb)
      | (r2, .err e2) => ({ r2 with cursor := saved }, .err (merge e1 e2))

/-- Modelled from the spec: the synthetic request builder of the test
harness (spec section 4.4): a method, a path with optional query string
(split at the first question mark; a path that does not begin with a slash
is an authority- or absolute-form target whose URI path is empty), headers
and extension values. -/
def request (m pq : String) (hs : List (String × String)) (exts : List String) : Request :=
  let pcs := pq.data.takeWhile (fun c => c ≠ '?')
  let rest := pq.data.dropWhile (fun c => c ≠ '?')
  { method := m
    path := if pcs.headD ' ' = '/' then String.mk pcs else ""
    query := if rest = [] then none else some (String.mk (rest.drop 1))
    headers := hs
    extensions := exts }

/-- The harness `filter` entry point: the extract tuple or the rejection. -/
def filterEx (f : Filter) (req : Request) : FOut :=
  (evalF f (Route.start req)).2

/-- The harness `matches` entry point: did the tree succeed. -/
def matchesF (f : Filter) (req : Request) : Bool :=
  match filterEx f req with
  | .ok _ => true
  | .err _ => false

/-- The harness `reply` entry point reduced to the rendered status code:
200 on success, otherwise the unrecovered rejection's default status
(spec sections 4.4 and 7). -/
def replyStatus (f : Filter) (req : Request) : Nat :=
  match filterEx f req with
  | .ok _ => 200
  | .err e => statusOf e

/-- Embedded from `src/server/src/filters/any.rs`: `Any::filter` returns
`AnyFut`, whose poll immediately resolves to `Poll::Ready(Ok(()))`; the
error type `Infallible` is embedded as `Empty`. -/
def anyFilterResult : Except Empty Unit :=
  Except.ok ()


/-- C1: when both branches of an `or` reject, the surfaced rejection is the
more specific one under the total order NotFound < MethodNotAllowed <
structural request error, and the rule composes through arbitrarily deep
`or` trees (the rank of a merged rejection is the maximum of the ranks).
Concretely: for (GET /hello) or (POST /bye), a GET request to /bye renders
405 rather than 404; with the GET /hello route additionally gated by a
required header, a GET /hello request missing that header renders 400
rather than 405; and a three-way `or` still surfaces the 405, with the
allowed-method sets united. -/
theorem C1_rejection_precedence :
    (∀ a b : Rejection, rank (merge a b) = max (rank a) (rank b))
    ∧ replyStatus (.or (.and (.method "GET") (.path "hello"))
        (.and (.method "POST") (.path "bye"))) (request "GET" "/bye" [] []) = 405
    ∧ replyStatus (.or (.and (.and (.method "GET") (.path "hello")) (.headerExact "foo" "bar"))
        (.and (.method "POST") (.path "bye"))) (request "GET" "/hello" [] []) = 400
    ∧ replyStatus (.or (.or (.and (.method "GET") (.path "hello"))
        (.and (.method "POST") (.path "bye")))
        (.and (.method "PUT") (.path "bye"))) (request "GET" "/bye" [] []) = 405 := by
  refine ⟨?_, by decide, by decide, by decide⟩
  intro a b
  cases a <;> cases b <;> simp [merge, rank, statusOf]

/-- C2: whenever the first branch of an `or` rejects — however much of the
path it consumed before rejecting — the second branch is evaluated against
the route with its original, fully restored cursor, and the cursor is
restored again after a second rejection. -/
theorem C2_or_backtracks (a b : Filter) (r r1 : Route) (e1 : Rejection)
    (h : evalF a r = (r1, .err e1)) :
    evalF (.or a b) r =
      (match evalF b r with
       | (r2, .ok vb) => (r2, .ok vb)
       | (r2, .err e2) => ({ r2 with cursor := r.cursor }, .err (merge e1 e2))) := by
  simp only [evalF, h]

/-- C2 witness: `path("foo").and(path("bar"))` against /foo/baz consumes
the "foo" segment (cursor 5) before rejecting, and the `or` still runs the
alternative against the unconsumed route. -/
theorem C2_or_backtracks_witness :
    evalF (.or (.and (.path "foo") (.path "bar")) (.and (.path "foo") (.path "baz")))
        (Route.start (request "GET" "/foo/baz" [] [])) =
      (match evalF (.and (.path "foo") (.path "baz"))
          (Route.start (request "GET" "/foo/baz" [] [])) with
       | (r2, .ok vb) => (r2, .ok vb)
       | (r2, .err e2) =>
         ({ r2 with cursor := (Route.start (request "GET" "/foo/baz" [] [])).cursor },
          .err (merge .notFound e2))) :=
  C2_or_backtracks (.and (.path "foo") (.path "bar")) (.and (.path "foo") (.path "baz"))
    (Route.start (request "GET" "/foo/baz" [] []))
    { Route.start (request "GET" "/foo/baz" [] []) with cursor := 5 }
    .notFound (by decide)

/-- C3 counterexample: a missing request extension renders 500, not 400 —
the shipped test (`tests/ext.rs`, `get_missing`) asserts exactly this, so
the claim's "missing extension renders 400" fails on the code. -/
theorem C3_counterexample :
    replyStatus (.extGet "Ext1") (request "GET" "/" [] []) = 500 ∧ (500 : Nat) ≠ 400 := by
  decide

/-- C3 (amended): if no filter recovers a rejection, the default reply
status is determined solely by the rejection kind: NotFound renders 404,
MethodNotAllowed renders 405, and the structural request errors render 400
(missing/invalid header, missing cookie, invalid query, oversized
payload) — except a missing extension, which renders 500. -/
theorem C3_default_reply_statuses :
    statusOf .notFound = 404
    ∧ (∀ ms, statusOf (.methodNotAllowed ms) = 405)
    ∧ (∀ n, statusOf (.missingHeader n) = 400)
    ∧ (∀ n, statusOf (.invalidHeader n) = 400)
    ∧ (∀ n, statusOf (.missingCookie n) = 400)
    ∧ statusOf .invalidQuery = 400
    ∧ statusOf .payloadTooLarge = 400
    ∧ statusOf .missingExtension = 500
    ∧ replyStatus (.cookie "foo") (request "GET" "/" [("cookie", "not=here")] []) = 400
    ∧ replyStatus (.query ["foo", "baz"]) (request "GET" "/" [] []) = 400
    ∧ replyStatus (.extGet "Ext1") (request "GET" "/" [] []) = 500 :=
  ⟨rfl, fun _ => rfl, fun _ => rfl, fun _ => rfl, fun _ => rfl, rfl, rfl, rfl,
   by decide, by decide, by decide⟩

/-- C4: `and` composition is associative: however the combinator tree
nests, the evaluation — and in particular the flat extract tuple
a ++ b ++ c — is identical. -/
theorem C4_and_assoc (a b c : Filter) (r : Route) :
    evalF (.and (.and a b) c) r = evalF (.and a (.and b c)) r := by
  simp only [evalF]
  rcases h1 : evalF a r with ⟨r1, va | e1⟩ <;> simp only [h1]
  · rcases h2 : evalF b r1 with ⟨r2, vb | e2⟩ <;> simp only [h2]
    · rcases h3 : evalF c r2 with ⟨r3, vc | e3⟩ <;> simp only [h3]
      · simp [List.append_assoc]

/-- C5: the empty-extract filter `any()` is a two-sided identity for
`and`: both `A.and(any)` and `any.and(A)` evaluate exactly as A does,
yielding A's extract tuple with the unit tuple absorbed. -/
theorem C5_any_unit_identity (a : Filter) (r : Route) :
    evalF (.and a .any) r = evalF a r ∧ evalF (.and .any a) r = evalF a r := by
  constructor
  · simp only [evalF]
    rcases h1 : evalF a r with ⟨r1, vs | e⟩ <;> simp [h1]
  · simp only [evalF]
    rcases h1 : evalF a r with ⟨r1, vs | e⟩ <;> simp [h1]

/-- C6: the param matcher consumes the next path segment and parses it,
yielding the parsed value and advancing the cursor on success; an empty
segment never matches (NotFound, so "/" alone never yields a param), and a
present but unparsable segment also rejects NotFound rather than producing
a different error. -/
theorem C6_param_semantics :
    (∀ (p : List Char → Option Val) (r : Route), firstSeg r.remaining = [] →
        evalF (.param p) r = (r, .err .notFound))
    ∧ (∀ (p : List Char → Option Val) (r : Route), p (firstSeg r.remaining) = none →
        evalF (.param p) r = (r, .err .notFound))
    ∧ evalF (.param parseU32) (Route.start (request "GET" "/321" [] [])) =
        ({ req := request "GET" "/321" [] [], cursor := 4 }, .ok [.nat 321])
    ∧ filterEx (.param parseStr) (request "GET" "/" [] []) = .err .notFound
    ∧ filterEx (.param parseU32) (request "GET" "/nextshell" [] []) = .err .notFound := by
  refine ⟨?_, ?_, by decide, by decide, by decide⟩
  · intro p r h
    simp [evalF, h]
  · intro p r h
    by_cases hs : firstSeg r.remaining = []
    · simp [evalF, hs]
    · simp [evalF, hs, h]

/-- C6 witness: the empty-segment rule applied at "/" and the
unparsable-segment rule applied at "/nextshell" against `param::<u32>()`. -/
theorem C6_param_semantics_witness :
    evalF (.param parseStr) (Route.start (request "GET" "/" [] [])) =
      (Route.start (request "GET" "/" [] []), .err .notFound)
    ∧ evalF (.param parseU32) (Route.start (request "GET" "/nextshell" [] [])) =
      (Route.start (request "GET" "/nextshell" [] []), .err .notFound) :=
  ⟨C6_param_semantics.1 parseStr (Route.start (request "GET" "/" [] [])) (by decide),
   C6_param_semantics.2.1 parseU32 (Route.start (request "GET" "/nextshell" [] [])) (by decide)⟩

/-- C7: the `end` matcher succeeds exactly when the cursor is at the end
of the (query-free) path, leaving the route untouched: it matches "/", the
authority-form root, and a path truncated by "?query", and rejects a path
with unconsumed segments such as "/foo". -/
theorem C7_end_at_path_end :
    (∀ r : Route, ((evalF .pathEnd r).2 = FOut.ok [] ↔ r.remaining = [])
        ∧ (evalF .pathEnd r).1 = r)
    ∧ matchesF .pathEnd (request "GET" "/" [] []) = true
    ∧ matchesF .pathEnd (request "GET" "localhost:1234" [] []) = true
    ∧ matchesF .pathEnd (request "GET" "http://localhost:1234?q=2" [] []) = true
    ∧ matchesF .pathEnd (request "GET" "/foo" [] []) = false := by
  refine ⟨?_, by decide, by decide, by decide, by decide⟩
  intro r
  by_cases h : r.remaining = [] <;> simp [evalF, h]

/-- C8: the `tail` matcher always succeeds, yields the remaining
unconsumed suffix excluding the query string (empty on "/", and without a
previously matched prefix), and every filter that follows it in the same
`and` chain observes the cursor at path-end: `tail.and(path("foo"))` never
matches while `tail.and(end)` always does. -/
theorem C8_tail_semantics :
    (∀ req : Request, matchesF .tail req = true)
    ∧ (∀ req : Request, matchesF (.and .tail (.path "foo")) req = false)
    ∧ (∀ req : Request, matchesF (.and .tail .pathEnd) req = true)
    ∧ filterEx .tail (request "GET" "/42/vroom" [] []) = .ok [.str "42/vroom"]
    ∧ filterEx .tail (request "GET" "/" [] []) = .ok [.str ""]
    ∧ filterEx .tail (request "GET" "/foo/bar?baz=quux" [] []) = .ok [.str "foo/bar"]
    ∧ filterEx (.and (.path "foo") .tail) (request "GET" "/foo/bar" [] []) = .ok [.str "bar"] := by
  refine ⟨?_, ?_, ?_, by decide, by decide, by decide, by decide⟩
  · intro req
    rfl
  · intro req
    simp [matchesF, filterEx, evalF, Route.remaining, List.drop_length]
  · intro req
    simp [matchesF, filterEx, evalF, Route.remaining, List.drop_length]

/-- C9: the `peek` matcher always succeeds, yields the remaining
unconsumed suffix (excluding the query string and any previously matched
prefix) as a segment-enumerable view, and leaves the route — in particular
the cursor — unchanged, so filters chained after it still see the
original remainder and `peek.and(path("foo")).and(path("bar"))` matches
/foo/bar. -/
theorem C9_peek_semantics :
    (∀ r : Route, evalF .peek r = (r, .ok [.str (String.mk r.remaining)]))
    ∧ (∀ (a : Filter) (r : Route), evalF (.and .peek a) r =
        (match evalF a r with
         | (r2, .ok vs) => (r2, .ok (.str (String.mk r.remaining) :: vs))
         | (r2, .err e) => (r2, .err e)))
    ∧ filterEx .peek (request "GET" "/42/vroom" [] []) = .ok [.str "42/vroom"]
    ∧ segsOf "42/vroom" = ["42", "vroom"]
    ∧ filterEx .peek (request "GET" "/" [] []) = .ok [.str ""]
    ∧ segsOf "" = []
    ∧ filterEx .peek (request "GET" "/foo/bar?baz=quux" [] []) = .ok [.str "foo/bar"]
    ∧ filterEx (.and (.path "foo") .peek) (request "GET" "/foo/bar" [] []) = .ok [.str "bar"]
    ∧ matchesF (.and (.and .peek (.path "foo")) (.path "bar"))
        (request "GET" "/foo/bar" [] []) = true := by
  refine ⟨fun r => rfl, ?_, by decide, by decide, by decide, by decide, by decide,
    by decide, by decide⟩
  intro a r
  simp only [evalF]
  rcases h : evalF a r with ⟨r2, vs | e⟩ <;> simp [h]

/-- C10: the `any()` filter succeeds for every request state without
suspending, yields the empty extract tuple and leaves the route (cursor
included) unchanged; its error type is Infallible, so it can never
reject. -/
theorem C10_any_always_ok :
    (∀ r : Route, evalF .any r = (r, FOut.ok []))
    ∧ anyFilterResult = Except.ok ()
    ∧ (∀ e : Empty, Except.error e ≠ anyFilterResult) :=
  ⟨fun _ => rfl, rfl, fun e => e.elim⟩

end Nextshell
